import Mathlib

/-!
Shallow embedding of `src/SnowflakeOparations/column_detector.py`
(class `SnowflakeColumnDetector` and its `main` driver).

The warehouse (Snowflake) is external to the repository, so it is modelled
as an oracle value `Warehouse`:

* `tablesRows` / `columnsRows` are the contents of the catalog views
  `INFORMATION_SCHEMA.TABLES` / `INFORMATION_SCHEMA.COLUMNS` for the
  configured database.  The catalog queries issued by the program are plain
  `SELECT ... WHERE ... ORDER BY ...` statements over these views, so they
  are embedded as filter-then-sort over the rows; per standard SQL
  semantics such a query on an existing system view never fails because a
  `WHERE` literal matches nothing — it returns an empty row set.
* `connectResult` is the outcome of `snowflake.connector.connect`
  (authentication / network may fail).
* `sampleResult t c` is the outcome of the per-column data query
  `SELECT DISTINCT "c" FROM db.schema."t" WHERE "c" IS NOT NULL`
  (full distinct stream, already rendered through `str`); the `LIMIT n`
  of the source query is the `take n` applied by `get_sample_values`.
  This query can fail (permissions, non-comparable types, ...), which the
  oracle expresses with `Except.error`.

Machine-level aspects (the python process, printing, pandas internals) are
out of the embedding; the DataFrame built by `analyze_schema` is the list
of its rows, in order.
-/

/-- One row of `INFORMATION_SCHEMA.TABLES` (the fields the program reads). -/
structure TableRow where
  tableSchema : String
  tableName : String
  tableType : String
deriving DecidableEq

/-- One row of `INFORMATION_SCHEMA.COLUMNS` (the fields selected by
`get_columns_info`, plus `ordinalPosition`, which the source query sorts by). -/
structure ColumnRow where
  tableSchema : String
  tableName : String
  ordinalPosition : Nat
  columnName : String
  dataType : String
  isNullable : String
  columnDefault : Option String
  charMaxLength : Option Nat
  numericPrecision : Option Nat
  numericScale : Option Nat
deriving DecidableEq

/-- The external warehouse, as seen through the queries the program issues. -/
structure Warehouse where
  connectResult : Except String Unit
  tablesRows : List TableRow
  columnsRows : List ColumnRow
  sampleResult : String → String → Except String (List String)

/-- The mutable state of a `SnowflakeColumnDetector` object: its configured
schema and its `self.connection` attribute.  `none` models
`self.connection = None` (never connected); `some true` an open connection
object; `some false` a closed connection object (`close()` was called —
the attribute keeps pointing at the object, which stays truthy). -/
structure Detector where
  schema : String
  connection : Option Bool
deriving DecidableEq

/-- Python truthiness of `self.connection`: any connection object (open or
closed) is truthy, `None` is falsy. -/
def isTruthy (c : Option Bool) : Bool := c.isSome

/-- `connect` (source lines 43–57): assigns a fresh connection on success,
re-raises the driver exception on failure (the attribute keeps its old
value because the assignment never happens). -/
def connect (w : Warehouse) (d : Detector) : Except String Detector :=
  match w.connectResult with
  | .ok _ => .ok { d with connection := some true }
  | .error e => .error e

/-- `disconnect` (source lines 59–63): `if self.connection: self.connection.close()`.
A no-op when never connected; closing an already closed connection leaves it
closed. -/
def disconnect (d : Detector) : Detector :=
  match d.connection with
  | none => d
  | some _ => { d with connection := some false }

/-- Comparison used to model `ORDER BY ORDINAL_POSITION`. -/
def colOrd (a b : ColumnRow) : Prop := a.ordinalPosition ≤ b.ordinalPosition

instance : DecidableRel colOrd := fun a b => Nat.decLe a.ordinalPosition b.ordinalPosition

instance : IsTotal ColumnRow colOrd := ⟨fun a b => Nat.le_total a.ordinalPosition b.ordinalPosition⟩

instance : IsTrans ColumnRow colOrd := ⟨fun _ _ _ => Nat.le_trans⟩

/-- `get_tables` (source lines 65–87): `SELECT TABLE_NAME FROM
INFORMATION_SCHEMA.TABLES WHERE TABLE_SCHEMA = schema AND TABLE_TYPE =
'BASE TABLE' ORDER BY TABLE_NAME`.  Embedded as filter, project, sort by
name (`String` order is lexicographic on code points). -/
def get_tables (w : Warehouse) (d : Detector) : List String :=
  ((w.tablesRows.filter
      (fun r => r.tableSchema == d.schema && r.tableType == "BASE TABLE")).map
    (fun r => r.tableName)).insertionSort (· ≤ ·)

/-- `get_columns_info` (source lines 89–129): `SELECT ... FROM
INFORMATION_SCHEMA.COLUMNS WHERE TABLE_SCHEMA = schema AND TABLE_NAME =
table_name ORDER BY ORDINAL_POSITION`, materialized as a DataFrame (here:
the ordered list of rows).  A `table_name` absent from the catalog matches
no row, so the result is the empty list — the query itself succeeds. -/
def get_columns_info (w : Warehouse) (d : Detector) (table_name : String) : List ColumnRow :=
  (w.columnsRows.filter
      (fun r => r.tableSchema == d.schema && r.tableName == table_name)).insertionSort colOrd

/-- `get_sample_values` (source lines 131–164): runs the DISTINCT sample
query with `LIMIT sample_size`; on any exception returns the one-element
list `[f"エラー: {str(e)}"]` instead of propagating. -/
def get_sample_values (w : Warehouse) (table_name column_name : String)
    (sample_size : Nat) : List String :=
  match w.sampleResult table_name column_name with
  | .ok vs => vs.take sample_size
  | .error e => ["エラー: " ++ e]

/-- One output record appended by `analyze_schema`'s inner loop
(source lines 202–217); field names are romanized versions of the
Japanese dict keys テーブル名 / カラム名 / データ型 / NULL許可 / サンプル値. -/
structure AnalysisRow where
  tableName : String
  columnName : String
  dataType : String
  isNullable : String
  sampleStr : String
deriving DecidableEq

/-- The row built for one column `c` of table `t` (source lines 202–217):
`sample_str = ', '.join([str(s) for s in samples[:sample_size]])`. -/
def rowFor (w : Warehouse) (sample_size : Nat) (t : String) (c : ColumnRow) : AnalysisRow :=
  let samples := get_sample_values w t c.columnName sample_size
  { tableName := t
    columnName := c.columnName
    dataType := c.dataType
    isNullable := c.isNullable
    sampleStr := String.intercalate ", " (samples.take sample_size) }

/-- The `results` accumulator of `analyze_schema`'s nested loops
(source lines 194–220), as the fold it literally is: for each table in
order, for each column row in order, append one record. -/
def analyzeRows (w : Warehouse) (d : Detector) (sample_size : Nat)
    (tables : List String) : List AnalysisRow :=
  tables.foldl
    (fun acc t =>
      (get_columns_info w d t).foldl (fun acc2 c => acc2 ++ [rowFor w sample_size t c]) acc)
    []

/-- Table-set selection of `analyze_schema` (source lines 186–190):
`if specific_tables: tables = specific_tables else: tables = self.get_tables()`.
Python truthiness sends both `None` and the empty list to `get_tables`. -/
def selectTables (w : Warehouse) (d : Detector) (specific_tables : Option (List String)) :
    List String :=
  match specific_tables with
  | some ts => if ts.isEmpty then get_tables w d else ts
  | none => get_tables w d

/-- `analyze_schema` (source lines 166–222): connects first if
`self.connection` is falsy, picks the table set, then builds the result
rows; returns the updated detector state together with the DataFrame rows. -/
def analyze_schema (w : Warehouse) (d : Detector) (sample_size : Nat)
    (specific_tables : Option (List String)) : Except String (Detector × List AnalysisRow) :=
  match (if isTruthy d.connection then Except.ok d else connect w d) with
  | .error e => .error e
  | .ok d1 => .ok (d1, analyzeRows w d1 sample_size (selectTables w d1 specific_tables))

/-- Does a CSV field need quoting under the default pandas `QUOTE_MINIMAL`
policy (field contains the delimiter, the quote char, or a line break)? -/
def needsQuote (s : String) : Bool :=
  s.data.any (fun ch => ch == ',' || ch == '"' || ch == '\n' || ch == '\r')

/-- Render one CSV field: quoted (with doubled quote chars) only if needed. -/
def csvField (s : String) : String :=
  if needsQuote s then "\"" ++ (s.replace "\"" "\"\"") ++ "\"" else s

/-- Render one CSV record. -/
def csvLine (fields : List String) : String :=
  String.intercalate "," (fields.map csvField)

/-- The DataFrame column labels, in dict-insertion order (source lines 211–217). -/
def headerFields : List String :=
  ["テーブル名", "カラム名", "データ型", "NULL許可", "サンプル値"]

/-- The five cells of one record, in column order. -/
def rowFields (r : AnalysisRow) : List String :=
  [r.tableName, r.columnName, r.dataType, r.isNullable, r.sampleStr]

/-- `df.to_csv(..., index=False)`: header line then one line per row, each
terminated by a newline.  A DataFrame built from an empty `results` list has
no columns at all, so its CSV is the single empty line. -/
def csvContent (rows : List AnalysisRow) : String :=
  match rows with
  | [] => "\n"
  | _ => String.intercalate "\n" (csvLine headerFields :: rows.map (fun r => csvLine (rowFields r))) ++ "\n"

/-- File content under `encoding='utf-8-sig'`: the byte-order mark
code point U+FEFF prefixed to the CSV text (the encoder then writes it as
the UTF-8 BOM bytes EF BB BF). -/
def utf8SigContent (rows : List AnalysisRow) : String :=
  "\uFEFF" ++ csvContent rows

/-- The file system, as path → content. -/
def FS : Type := String → Option String

/-- `export_to_csv` (source lines 224–236): `df.to_csv(output_file,
index=False, encoding='utf-8-sig')` — writes the rendered content at
`output_file`, unconditionally replacing whatever was there. -/
def export_to_csv (fs : FS) (rows : List AnalysisRow) (output_file : String) : FS :=
  fun p => if p = output_file then some (utf8SigContent rows) else fs p

/-- `main` (source lines 253–295), generalized over the `specific_tables`
argument shown in its comment: try connect → analyze → export, on any
exception skip the export, and always disconnect.  Returns the final
detector state, the final file system, and whether the run succeeded
(`false` = the except-branch printed the error). -/
def mainRunWith (w : Warehouse) (schemaName : String) (fs : FS)
    (specific_tables : Option (List String)) : Detector × FS × Bool :=
  let d0 : Detector := { schema := schemaName, connection := none }
  match connect w d0 with
  | .error _ => (disconnect d0, fs, false)
  | .ok d1 =>
    match analyze_schema w d1 5 specific_tables with
    | .error _ => (disconnect d1, fs, false)
    | .ok (d2, rows) =>
      (disconnect d2, export_to_csv fs rows "snowflake_schema_analysis.csv", true)

/-- `main` exactly as written (source line 277 passes no `specific_tables`). -/
def mainRun (w : Warehouse) (schemaName : String) (fs : FS) : Detector × FS × Bool :=
  mainRunWith w schemaName fs none

/-!
### Fallible catalog queries

`cursor.execute` of the two catalog queries (source lines 83 and 119) can
itself raise — network loss, warehouse suspension, SQL compilation errors —
and `get_tables` / `get_columns_info` install no handler, so such a
QueryError propagates through `analyze_schema` to `main`'s except/finally
(source lines 291–295) with the session open.  `WarehouseF` extends the
oracle with these failure outcomes; its success path is by construction the
`Warehouse` model above (see `analyze_schemaF_of_no_failure`).
-/

/-- The warehouse oracle with fallible catalog queries: as `Warehouse`, plus
the exception (if any) raised by the table-list query and by the
column-metadata query for a given table name. -/
structure WarehouseF where
  connectResult : Except String Unit
  tablesRows : List TableRow
  columnsRows : List ColumnRow
  tablesQueryFailure : Option String
  columnsQueryFailure : String → Option String
  sampleResult : String → String → Except String (List String)

/-- The infallible view of a fallible warehouse (what every query returns
when it does not raise). -/
def WarehouseF.toWarehouse (w : WarehouseF) : Warehouse :=
  ⟨w.connectResult, w.tablesRows, w.columnsRows, w.sampleResult⟩

/-- `get_tables` with the query's own failure modelled: either the raised
exception, or exactly the rows of the infallible embedding. -/
def get_tablesF (w : WarehouseF) (d : Detector) : Except String (List String) :=
  match w.tablesQueryFailure with
  | some e => .error e
  | none => .ok (get_tables w.toWarehouse d)

/-- `get_columns_info` with the query's own failure modelled. -/
def get_columns_infoF (w : WarehouseF) (d : Detector) (table_name : String) :
    Except String (List ColumnRow) :=
  match w.columnsQueryFailure table_name with
  | some e => .error e
  | none => .ok (get_columns_info w.toWarehouse d table_name)

/-- The table loop of `analyze_schema` when a column-metadata query may
raise: the first failing table aborts the whole loop (the partial `results`
list dies with the exception); sample failures are still absorbed by
`get_sample_values`. -/
def analyzeRowsF (w : WarehouseF) (d : Detector) (sample_size : Nat) :
    List String → Except String (List AnalysisRow)
  | [] => .ok []
  | t :: ts =>
    match get_columns_infoF w d t with
    | .error e => .error e
    | .ok cols =>
      match analyzeRowsF w d sample_size ts with
      | .error e => .error e
      | .ok rest => .ok (cols.map (rowFor w.toWarehouse sample_size t) ++ rest)

/-- `analyze_schema` over the fallible oracle: any catalog-query exception
propagates out (there is no handler between source lines 183 and 222). -/
def analyze_schemaF (w : WarehouseF) (d : Detector) (sample_size : Nat)
    (specific_tables : Option (List String)) : Except String (Detector × List AnalysisRow) :=
  match (if isTruthy d.connection then Except.ok d else connect w.toWarehouse d) with
  | .error e => .error e
  | .ok d1 =>
    match (match specific_tables with
           | some ts => if ts.isEmpty then get_tablesF w d1 else .ok ts
           | none => get_tablesF w d1) with
    | .error e => .error e
    | .ok tables =>
      match analyzeRowsF w d1 sample_size tables with
      | .error e => .error e
      | .ok rows => .ok (d1, rows)

/-- `main` over the fallible oracle: try connect → analyze → export, the
export skipped on any exception, the disconnect always run. -/
def mainRunF (w : WarehouseF) (schemaName : String) (fs : FS) : Detector × FS × Bool :=
  let d0 : Detector := { schema := schemaName, connection := none }
  match connect w.toWarehouse d0 with
  | .error _ => (disconnect d0, fs, false)
  | .ok d1 =>
    match analyze_schemaF w d1 5 none with
    | .error _ => (disconnect d1, fs, false)
    | .ok (d2, rows) =>
      (disconnect d2, export_to_csv fs rows "snowflake_schema_analysis.csv", true)

/-! ### Concrete instances used to witness the theorems -/

/-- A small warehouse: one base table `USERS(ID NUMBER, EMAIL TEXT)` and one
view in schema `PUBLIC`; sampling works for `ID` and fails for everything
else. -/
def wEx : Warehouse where
  connectResult := .ok ()
  tablesRows :=
    [⟨"PUBLIC", "USERS", "BASE TABLE"⟩, ⟨"PUBLIC", "V_USERS", "VIEW"⟩]
  columnsRows :=
    [⟨"PUBLIC", "USERS", 1, "ID", "NUMBER", "NO", none, none, some 38, some 0⟩,
     ⟨"PUBLIC", "USERS", 2, "EMAIL", "TEXT", "YES", none, some 255, none, none⟩]
  sampleResult := fun t c =>
    if t == "USERS" && c == "ID" then .ok ["1", "2", "3"] else .error "boom"

/-- A detector for `wEx`, already connected. -/
def dEx : Detector := ⟨"PUBLIC", some true⟩

/-- The empty file system. -/
def fsEmpty : FS := fun _ => none

/-- A fallible warehouse where `connect` succeeds but the table-list
catalog query raises: the fatal failure happens with the session open. -/
def wQFail : WarehouseF where
  connectResult := .ok ()
  tablesRows := [⟨"PUBLIC", "USERS", "BASE TABLE"⟩]
  columnsRows := []
  tablesQueryFailure := some "SQL compilation error"
  columnsQueryFailure := fun _ => none
  sampleResult := fun _ _ => .ok []

/-- The rows `analyze_schema wEx dEx 2 none` produces. -/
def rowsEx : List AnalysisRow :=
  [⟨"USERS", "ID", "NUMBER", "NO", "1, 2"⟩,
   ⟨"USERS", "EMAIL", "TEXT", "YES", "エラー: boom"⟩]

/-! ### Helper lemmas -/

theorem foldl_push {α β : Type} (f : α → β) (l : List α) (acc : List β) :
    l.foldl (fun a c => a ++ [f c]) acc = acc ++ l.map f := by
  induction l generalizing acc with
  | nil => simp
  | cons x xs ih => simp [ih]

/-- The nested accumulator loops of `analyze_schema` build exactly the
concatenation, over the tables in order, of that table's column rows mapped
to analysis rows. -/
theorem analyzeRows_eq (w : Warehouse) (d : Detector) (n : Nat) (ts : List String) :
    analyzeRows w d n ts =
      ts.flatMap (fun t => (get_columns_info w d t).map (rowFor w n t)) := by
  suffices h : ∀ acc : List AnalysisRow,
      ts.foldl
        (fun acc t =>
          (get_columns_info w d t).foldl (fun acc2 c => acc2 ++ [rowFor w n t c]) acc)
        acc
      = acc ++ ts.flatMap (fun t => (get_columns_info w d t).map (rowFor w n t)) by
    simpa [analyzeRows] using h []
  induction ts with
  | nil => simp
  | cons t ts ih =>
    intro acc
    rw [List.foldl_cons, ih, foldl_push]
    simp [List.append_assoc]

theorem mem_analyzeRows {w : Warehouse} {d : Detector} {n : Nat} {ts : List String}
    {r : AnalysisRow} (h : r ∈ analyzeRows w d n ts) :
    ∃ t ∈ ts, ∃ c ∈ get_columns_info w d t, r = rowFor w n t c := by
  rw [analyzeRows_eq] at h
  simp only [List.mem_flatMap, List.mem_map] at h
  obtain ⟨t, ht, c, hc, hr⟩ := h
  exact ⟨t, ht, c, hc, hr.symm⟩

/-- Inversion of a successful `analyze_schema` call: the detector it returns
is the post-connect state, and the rows are the accumulator of the loops run
on the selected table set. -/
theorem analyze_schema_ok {w : Warehouse} {d d' : Detector} {n : Nat}
    {ft : Option (List String)} {rows : List AnalysisRow}
    (h : analyze_schema w d n ft = .ok (d', rows)) :
    rows = analyzeRows w d' n (selectTables w d' ft) := by
  unfold analyze_schema at h
  by_cases hc : isTruthy d.connection
  · simp only [hc, if_pos] at h
    cases h
    rfl
  · simp only [hc, if_neg, Bool.false_eq_true, not_false_iff] at h
    unfold connect at h
    cases hw : w.connectResult with
    | ok u => rw [hw] at h; cases h; rfl
    | error e => rw [hw] at h; cases h

theorem filter_flatMap_not_mem (g : String → List AnalysisRow) (ts : List String) (t : String)
    (hkey : ∀ t' ∈ ts, ∀ r ∈ g t', r.tableName = t')
    (hnt : t ∉ ts) :
    (ts.flatMap g).filter (fun r => r.tableName == t) = [] := by
  induction ts with
  | nil => simp
  | cons a as ih =>
    simp only [List.flatMap_cons, List.filter_append]
    rw [List.filter_eq_nil_iff.mpr, ih]
    · simp
    · exact fun t' ht' r hr => hkey t' (List.mem_cons_of_mem a ht') r hr
    · exact fun hmem => hnt (List.mem_cons_of_mem a hmem)
    · intro r hr
      have := hkey a (List.mem_cons_self a as) r hr
      simp only [this, beq_iff_eq]
      intro hat
      exact hnt (hat ▸ List.mem_cons_self a as)

/-- Filtering the flat concatenation down to one table recovers exactly that
table's block, provided the table list has no duplicates and every block is
keyed by its own table. -/
theorem filter_flatMap_key (g : String → List AnalysisRow) (ts : List String) (t : String)
    (hkey : ∀ t' ∈ ts, ∀ r ∈ g t', r.tableName = t')
    (hnd : ts.Nodup) (ht : t ∈ ts) :
    (ts.flatMap g).filter (fun r => r.tableName == t) = g t := by
  induction ts with
  | nil => cases ht
  | cons a as ih =>
    simp only [List.flatMap_cons, List.filter_append]
    rcases List.mem_cons.mp ht with rfl | hmem
    · rw [List.filter_eq_self.mpr, filter_flatMap_not_mem g as t
        (fun t' ht' r hr => hkey t' (List.mem_cons_of_mem t ht') r hr)
        (List.Nodup.not_mem hnd)]
      · simp
      · intro r hr
        simp [hkey t (List.mem_cons_self t as) r hr]
    · have hat : a ≠ t := by
        intro h
        exact (List.Nodup.not_mem hnd) (h ▸ hmem)
      rw [List.filter_eq_nil_iff.mpr, ih
        (fun t' ht' r hr => hkey t' (List.mem_cons_of_mem a ht') r hr)
        (List.Nodup.of_cons hnd) hmem]
      · simp
      · intro r hr
        have := hkey a (List.mem_cons_self a as) r hr
        simp [this, hat]

/-- The rendered sample error string is never empty. -/
theorem err_string_ne_empty (e : String) : ("エラー: " ++ e) ≠ "" := by
  intro h
  have h2 := congrArg String.length h
  simp [String.length_append] at h2
  exact absurd h2.1 (by decide)

theorem intercalate_nil_str (s : String) : String.intercalate s [] = "" := rfl

theorem intercalate_singleton_str (s x : String) : String.intercalate s [x] = x := rfl

/-- When no column-metadata query raises, the fallible table loop computes
exactly the rows of the infallible embedding. -/
theorem analyzeRowsF_of_no_failure (w : WarehouseF) (d : Detector) (n : Nat)
    (ts : List String) (hc : ∀ t, w.columnsQueryFailure t = none) :
    analyzeRowsF w d n ts = .ok (analyzeRows w.toWarehouse d n ts) := by
  induction ts with
  | nil => simp [analyzeRowsF, analyzeRows]
  | cons t ts ih =>
    rw [analyzeRows_eq, List.flatMap_cons]
    simp only [analyzeRowsF, get_columns_infoF, hc t]
    rw [ih, analyzeRows_eq]

/-- When no catalog query raises, the fallible embedding coincides with the
infallible one: `WarehouseF` refines `Warehouse`. -/
theorem analyze_schemaF_of_no_failure (w : WarehouseF) (d : Detector) (n : Nat)
    (ft : Option (List String))
    (ht : w.tablesQueryFailure = none) (hc : ∀ t, w.columnsQueryFailure t = none) :
    analyze_schemaF w d n ft = analyze_schema w.toWarehouse d n ft := by
  cases hif : (if isTruthy d.connection then Except.ok d else connect w.toWarehouse d) with
  | error e => simp [analyze_schemaF, analyze_schema, hif]
  | ok d1 =>
    simp only [analyze_schemaF, analyze_schema, hif]
    cases ft with
    | none =>
      simp [get_tablesF, ht, selectTables, analyzeRowsF_of_no_failure w d1 n _ hc]
    | some ts =>
      by_cases hts : ts.isEmpty <;>
        simp [get_tablesF, ht, selectTables, hts, analyzeRowsF_of_no_failure w d1 n _ hc]

/-! ### Claim theorems -/

/-- C3: a non-empty `specific_tables` list is used verbatim as the table set
— the conclusion holds for every warehouse `w`, so no validation against the
catalog takes place — and without it the table set is exactly what
`get_tables` returns. -/
theorem C3_filter_verbatim (w : Warehouse) (d : Detector) (n : Nat) (ft : List String)
    (hconn : isTruthy d.connection = true) (hft : ft ≠ []) :
    analyze_schema w d n (some ft) = .ok (d, analyzeRows w d n ft) ∧
    analyze_schema w d n none = .ok (d, analyzeRows w d n (get_tables w d)) := by
  have hempty : ft.isEmpty = false := by simpa [List.isEmpty_iff] using hft
  constructor <;> simp [analyze_schema, hconn, selectTables, hempty]

/-- C4: with `sample_size = 0` the analysis succeeds and every report row's
sample-value join is the empty string, failing sample queries included. -/
theorem C4_sample_size_zero (w : Warehouse) (d : Detector) (ft : Option (List String))
    (hconn : isTruthy d.connection = true) :
    ∃ rows, analyze_schema w d 0 ft = .ok (d, rows) ∧ ∀ r ∈ rows, r.sampleStr = "" := by
  refine ⟨analyzeRows w d 0 (selectTables w d ft), by simp [analyze_schema, hconn], ?_⟩
  intro r hr
  obtain ⟨t, _, c, _, rfl⟩ := mem_analyzeRows hr
  simp [rowFor, intercalate_nil_str]

/-- C5: the report's (table, column) pairs are exactly, and in order, the
concatenation over the selected tables of the pairs the column-metadata
query returned; in particular no row carries a pair the metadata query did
not return. -/
theorem C5_report_pairs (w : Warehouse) (d d' : Detector) (n : Nat) (ft : Option (List String))
    (rows : List AnalysisRow) (h : analyze_schema w d n ft = .ok (d', rows)) :
    rows.map (fun r => (r.tableName, r.columnName)) =
      (selectTables w d' ft).flatMap
        (fun t => (get_columns_info w d' t).map (fun c => (t, c.columnName))) ∧
    ∀ r ∈ rows, r.tableName ∈ selectTables w d' ft ∧
      ∃ c ∈ get_columns_info w d' r.tableName, c.columnName = r.columnName := by
  have hrows := analyze_schema_ok h
  subst hrows
  constructor
  · rw [analyzeRows_eq, List.map_flatMap]
    simp only [List.map_map]
    rfl
  · intro r hr
    obtain ⟨t, ht, c, hc, rfl⟩ := mem_analyzeRows hr
    exact ⟨ht, c, hc, rfl⟩

/-- C6: within one table (of a duplicate-free table set) the report lists the
columns in exactly the order the column-metadata query returned them, and
that order is sorted by `ORDINAL_POSITION` — the physical column position,
not the column name. -/
theorem C6_column_order (w : Warehouse) (d d' : Detector) (n : Nat) (ft : Option (List String))
    (rows : List AnalysisRow) (t : String)
    (h : analyze_schema w d n ft = .ok (d', rows))
    (hnd : (selectTables w d' ft).Nodup) (ht : t ∈ selectTables w d' ft) :
    (rows.filter (fun r => r.tableName == t)).map (fun r => r.columnName) =
      (get_columns_info w d' t).map (fun c => c.columnName) ∧
    List.Sorted colOrd (get_columns_info w d' t) := by
  have hrows := analyze_schema_ok h
  subst hrows
  refine ⟨?_, List.sorted_insertionSort colOrd _⟩
  have hkey : ∀ t' ∈ selectTables w d' ft,
      ∀ r ∈ (get_columns_info w d' t').map (rowFor w n t'), r.tableName = t' := by
    intro t' _ r hr
    obtain ⟨c, _, rfl⟩ := List.mem_map.mp hr
    rfl
  rw [analyzeRows_eq, filter_flatMap_key _ _ t hkey hnd ht, List.map_map]
  rfl

/-- C7: `get_tables` returns only names of `BASE TABLE` rows of the
configured schema (views excluded), sorted (`String` order is lexicographic
on code points), and a schema with no catalog rows yields `[]` rather than
an error. -/
theorem C7_list_tables (w : Warehouse) (d : Detector) :
    (∀ x ∈ get_tables w d, ∃ r ∈ w.tablesRows,
        r.tableSchema = d.schema ∧ r.tableType = "BASE TABLE" ∧ r.tableName = x) ∧
    List.Sorted (· ≤ ·) (get_tables w d) ∧
    ((∀ r ∈ w.tablesRows, r.tableSchema ≠ d.schema) → get_tables w d = []) := by
  refine ⟨?_, List.sorted_insertionSort _ _, ?_⟩
  · intro x hx
    have hx' := (List.perm_insertionSort (· ≤ ·) _).mem_iff.mp hx
    simp only [List.mem_map, List.mem_filter, Bool.and_eq_true, beq_iff_eq] at hx'
    obtain ⟨r, ⟨hrmem, hsch, hty⟩, rfl⟩ := hx'
    exact ⟨r, hrmem, hsch, hty, rfl⟩
  · intro hno
    have hfil : w.tablesRows.filter
        (fun r => r.tableSchema == d.schema && r.tableType == "BASE TABLE") = [] := by
      rw [List.filter_eq_nil_iff]
      intro r hr
      simp only [Bool.and_eq_true, beq_iff_eq, not_and]
      intro hs
      exact absurd hs (hno r hr)
    simp [get_tables, hfil]

/-- C8: the exported content is a pure function of the report (equal reports
give byte-identical files), it starts with the byte-order mark U+FEFF (the
`utf-8-sig` encoding), and the destination path is overwritten
unconditionally, whatever the file system held there before. -/
theorem C8_export_deterministic :
    (∀ r₁ r₂ : List AnalysisRow, r₁ = r₂ → utf8SigContent r₁ = utf8SigContent r₂) ∧
    (∀ rows : List AnalysisRow, (utf8SigContent rows).data.head? = some '\uFEFF') ∧
    (∀ (fs : FS) (rows : List AnalysisRow) (p : String),
        export_to_csv fs rows p p = some (utf8SigContent rows)) := by
  refine ⟨fun r₁ r₂ h => congrArg utf8SigContent h, fun rows => rfl, fun fs rows p => ?_⟩
  simp [export_to_csv]

/-- C9: on ANY top-level fatal failure — the run ended in `main`'s except
branch (success flag `false`), whether because `connect` raised or because a
catalog query raised after the session opened — the error is surfaced, no
output file is written (the file system is exactly as before, so no partial
report persists), and the session is not open at exit; when a session was
actually opened, the final state is explicitly closed (the finally-block
disconnect closed the open session), and the failure was an analyze-phase
error that bubbled to the top.  `disconnect` is idempotent and a no-op when
never connected. -/
theorem C9_fatal_failure (w : WarehouseF) (schemaName : String) (fs : FS)
    (hfail : (mainRunF w schemaName fs).2.2 = false) :
    (mainRunF w schemaName fs).2.1 = fs ∧
    (mainRunF w schemaName fs).1.connection ≠ some true ∧
    (w.connectResult = .ok () → (mainRunF w schemaName fs).1.connection = some false) ∧
    (w.connectResult = .ok () →
      ∃ e, analyze_schemaF w ⟨schemaName, some true⟩ 5 none = .error e) ∧
    (∀ d : Detector, disconnect (disconnect d) = disconnect d) ∧
    (∀ s : String, disconnect ⟨s, none⟩ = ⟨s, none⟩) := by
  cases hw : w.connectResult with
  | error e =>
    have hconn : connect w.toWarehouse ⟨schemaName, none⟩ = .error e := by
      simp [connect, WarehouseF.toWarehouse, hw]
    have hmain : mainRunF w schemaName fs = (⟨schemaName, none⟩, fs, false) := by
      simp [mainRunF, hconn, disconnect]
    rw [hmain]
    refine ⟨rfl, by simp, ?_, ?_, ?_, fun s => rfl⟩
    · intro hok; exact Except.noConfusion hok
    · intro hok; exact Except.noConfusion hok
    · intro d; obtain ⟨sd, c⟩ := d; cases c <;> rfl
  | ok u =>
    cases u
    have hconn : connect w.toWarehouse ⟨schemaName, none⟩ = .ok ⟨schemaName, some true⟩ := by
      simp [connect, WarehouseF.toWarehouse, hw]
    cases ha : analyze_schemaF w ⟨schemaName, some true⟩ 5 none with
    | error e =>
      have hmain : mainRunF w schemaName fs = (⟨schemaName, some false⟩, fs, false) := by
        simp [mainRunF, hconn, ha, disconnect]
      rw [hmain]
      exact ⟨rfl, by simp, fun _ => rfl, fun _ => ⟨e, rfl⟩,
        fun d => by obtain ⟨sd, c⟩ := d; cases c <;> rfl, fun s => rfl⟩
    | ok p =>
      obtain ⟨d2, rows⟩ := p
      have hmain : (mainRunF w schemaName fs).2.2 = true := by
        simp [mainRunF, hconn, ha]
      rw [hmain] at hfail
      cases hfail

/-- C10: `analyze_schema` called on a never-connected detector does not
fail — it establishes the session itself and then produces exactly the rows
an explicitly pre-connected call produces. -/
theorem C10_auto_connect (w : Warehouse) (schemaName : String) (n : Nat)
    (ft : Option (List String)) (hok : w.connectResult = .ok ()) :
    ∃ rows, analyze_schema w ⟨schemaName, none⟩ n ft = .ok (⟨schemaName, some true⟩, rows) ∧
      analyze_schema w ⟨schemaName, some true⟩ n ft = .ok (⟨schemaName, some true⟩, rows) := by
  refine ⟨analyzeRows w ⟨schemaName, some true⟩ n (selectTables w ⟨schemaName, some true⟩ ft),
    ?_, ?_⟩
  · simp [analyze_schema, isTruthy, connect, hok]
  · simp [analyze_schema, isTruthy]

/-- C1 (counterexample): with the table filter `["GHOST"]` on a catalog
without a table `GHOST`, the column-metadata fetch does NOT fail — it
returns an empty row set — the analysis succeeds with an empty report, and
the run completes and writes the output file; this contradicts the claim
that the run aborts with a QueryError and writes nothing. -/
theorem C1_counterexample :
    get_columns_info wEx dEx "GHOST" = [] ∧
    analyze_schema wEx dEx 5 (some ["GHOST"]) = .ok (dEx, []) ∧
    (mainRunWith wEx "PUBLIC" fsEmpty (some ["GHOST"])).2.1 "snowflake_schema_analysis.csv"
      = some "\uFEFF\n" ∧
    (mainRunWith wEx "PUBLIC" fsEmpty (some ["GHOST"])).2.2 = true :=
  ⟨rfl, rfl, rfl, rfl⟩

/-- C1 (amended): if the table filter names only tables absent from the
catalog, the column-metadata query returns zero rows for each of them, the
analysis succeeds with an empty report, and the run still writes the output
file (it does not abort). -/
theorem C1_ghost_filter (w : Warehouse) (schemaName : String) (fs : FS) (ft : List String)
    (hconn : w.connectResult = .ok ())
    (hft : ft ≠ [])
    (hghost : ∀ t ∈ ft, ∀ r ∈ w.columnsRows, ¬(r.tableSchema = schemaName ∧ r.tableName = t)) :
    (∀ t ∈ ft, get_columns_info w ⟨schemaName, some true⟩ t = []) ∧
    analyze_schema w ⟨schemaName, some true⟩ 5 (some ft) = .ok (⟨schemaName, some true⟩, []) ∧
    (mainRunWith w schemaName fs (some ft)).2.1 "snowflake_schema_analysis.csv"
      = some (utf8SigContent []) ∧
    (mainRunWith w schemaName fs (some ft)).2.2 = true := by
  have hcols : ∀ t ∈ ft, get_columns_info w ⟨schemaName, some true⟩ t = [] := by
    intro t ht
    have hfil : w.columnsRows.filter
        (fun r => r.tableSchema == schemaName && r.tableName == t) = [] := by
      rw [List.filter_eq_nil_iff]
      intro r hr
      simp only [Bool.and_eq_true, beq_iff_eq, not_and]
      intro h1 h2
      exact hghost t ht r hr ⟨h1, h2⟩
    simp [get_columns_info, hfil]
  have hrows : analyzeRows w ⟨schemaName, some true⟩ 5 ft = [] := by
    rw [analyzeRows_eq]
    apply List.flatMap_eq_nil_iff.mpr
    intro t ht
    rw [hcols t ht]
    rfl
  have hempty : ft.isEmpty = false := by simpa [List.isEmpty_iff] using hft
  have hana : analyze_schema w ⟨schemaName, some true⟩ 5 (some ft)
      = .ok (⟨schemaName, some true⟩, []) := by
    simp [analyze_schema, isTruthy, selectTables, hempty, hrows]
  refine ⟨hcols, hana, ?_, ?_⟩ <;>
    simp [mainRunWith, connect, hconn, hana, export_to_csv]

/-- C1 (amended, witness): the amended statement at the concrete ghost
filter. -/
theorem C1_witness :
    (∀ t ∈ ["GHOST"], get_columns_info wEx ⟨"PUBLIC", some true⟩ t = []) ∧
    analyze_schema wEx ⟨"PUBLIC", some true⟩ 5 (some ["GHOST"])
      = .ok (⟨"PUBLIC", some true⟩, []) ∧
    (mainRunWith wEx "PUBLIC" fsEmpty (some ["GHOST"])).2.1 "snowflake_schema_analysis.csv"
      = some (utf8SigContent []) ∧
    (mainRunWith wEx "PUBLIC" fsEmpty (some ["GHOST"])).2.2 = true :=
  C1_ghost_filter wEx "PUBLIC" fsEmpty ["GHOST"] rfl (by decide) (by decide)

/-- C2 (counterexample): at `sample_size = 0` the `EMAIL` sample query fails,
yet the corresponding report row's sample field is the EMPTY string — the
`samples[:0]` slice drops the error marker — contradicting the claim that a
failing column's sample field is always a non-empty error description. -/
theorem C2_counterexample :
    wEx.sampleResult "USERS" "EMAIL" = .error "boom" ∧
    analyze_schema wEx dEx 0 none =
      .ok (dEx, [⟨"USERS", "ID", "NUMBER", "NO", ""⟩,
                 ⟨"USERS", "EMAIL", "TEXT", "YES", ""⟩]) :=
  ⟨rfl, rfl⟩

/-- C2 (amended): `get_sample_values` never propagates a failure — it
returns the one-element rendered error list — and, provided
`sample_size ≥ 1`, the report row of a column whose sample query failed
carries that non-empty error description as its sample field; a connected
analysis run always succeeds, whatever the sample failures. -/
theorem C2_error_isolation (w : Warehouse) (d : Detector) (n : Nat) (ft : Option (List String))
    (hn : 1 ≤ n) :
    (∀ t c e, w.sampleResult t c = .error e → get_sample_values w t c n = ["エラー: " ++ e]) ∧
    (∀ d' rows, analyze_schema w d n ft = .ok (d', rows) →
      ∀ r ∈ rows, ∀ e, w.sampleResult r.tableName r.columnName = .error e →
        r.sampleStr = "エラー: " ++ e ∧ r.sampleStr ≠ "") ∧
    (isTruthy d.connection = true → ∃ p, analyze_schema w d n ft = .ok p) := by
  obtain ⟨m, rfl⟩ : ∃ m, n = m + 1 := ⟨n - 1, by omega⟩
  refine ⟨?_, ?_, ?_⟩
  · intro t c e he
    simp [get_sample_values, he]
  · intro d' rows h r hr e he
    have hrows := analyze_schema_ok h
    subst hrows
    obtain ⟨t, ht, c, hc, rfl⟩ := mem_analyzeRows hr
    have hs : (rowFor w (m + 1) t c).sampleStr = "エラー: " ++ e := by
      simp only [rowFor, get_sample_values]
      rw [show w.sampleResult t c.columnName = .error e from he]
      simp [intercalate_singleton_str]
    exact ⟨hs, hs ▸ err_string_ne_empty e⟩
  · intro hc
    refine ⟨(d, analyzeRows w d (m + 1) (selectTables w d ft)), ?_⟩
    simp [analyze_schema, hc]

/-- C2 (amended, witness): the amended statement evaluated on the concrete
warehouse where the `EMAIL` sample query fails, at `sample_size = 1`. -/
theorem C2_witness :
    get_sample_values wEx "USERS" "EMAIL" 1 = ["エラー: boom"] ∧
    (AnalysisRow.sampleStr ⟨"USERS", "EMAIL", "TEXT", "YES", "エラー: boom"⟩ = "エラー: boom" ∧
      AnalysisRow.sampleStr ⟨"USERS", "EMAIL", "TEXT", "YES", "エラー: boom"⟩ ≠ "") ∧
    ∃ p, analyze_schema wEx dEx 1 none = .ok p :=
  ⟨(C2_error_isolation wEx dEx 1 none (by decide)).1 "USERS" "EMAIL" "boom" rfl,
   (C2_error_isolation wEx dEx 1 none (by decide)).2.1 dEx
      [⟨"USERS", "ID", "NUMBER", "NO", "1"⟩, ⟨"USERS", "EMAIL", "TEXT", "YES", "エラー: boom"⟩]
      rfl ⟨"USERS", "EMAIL", "TEXT", "YES", "エラー: boom"⟩ (by decide) "boom" rfl,
   (C2_error_isolation wEx dEx 1 none (by decide)).2.2 rfl⟩

/-- C3 (witness): the claim at the concrete warehouse, with the filter
`["GHOST"]` taken verbatim. -/
theorem C3_witness :
    analyze_schema wEx dEx 2 (some ["GHOST"]) = .ok (dEx, analyzeRows wEx dEx 2 ["GHOST"]) ∧
    analyze_schema wEx dEx 2 none = .ok (dEx, analyzeRows wEx dEx 2 (get_tables wEx dEx)) :=
  C3_filter_verbatim wEx dEx 2 ["GHOST"] rfl (by decide)

/-- C4 (witness): `sample_size = 0` on the concrete warehouse. -/
theorem C4_witness :
    ∃ rows, analyze_schema wEx dEx 0 none = .ok (dEx, rows) ∧ ∀ r ∈ rows, r.sampleStr = "" :=
  C4_sample_size_zero wEx dEx none rfl

/-- C5 (witness): the pair invariant at the concrete run. -/
theorem C5_witness :
    rowsEx.map (fun r => (r.tableName, r.columnName)) =
      (selectTables wEx dEx none).flatMap
        (fun t => (get_columns_info wEx dEx t).map (fun c => (t, c.columnName))) ∧
    ∀ r ∈ rowsEx, r.tableName ∈ selectTables wEx dEx none ∧
      ∃ c ∈ get_columns_info wEx dEx r.tableName, c.columnName = r.columnName :=
  C5_report_pairs wEx dEx dEx 2 none rowsEx rfl

/-- C6 (witness): on the concrete run the `USERS` rows appear as
`ID, EMAIL` — the ordinal-position order, which here differs from the
alphabetical order `EMAIL, ID`. -/
theorem C6_witness :
    (rowsEx.filter (fun r => r.tableName == "USERS")).map (fun r => r.columnName)
      = ["ID", "EMAIL"] ∧
    List.Sorted colOrd (get_columns_info wEx dEx "USERS") := by
  have h := C6_column_order wEx dEx dEx 2 none rowsEx "USERS" rfl (by decide) (by decide)
  exact ⟨h.1.trans (by decide), h.2⟩

/-- C7 (witness): a schema with no catalog rows yields the empty table list,
and the concrete table list is sorted. -/
theorem C7_witness :
    get_tables wEx ⟨"OTHER", some true⟩ = [] ∧
    List.Sorted (· ≤ ·) (get_tables wEx dEx) :=
  ⟨(C7_list_tables wEx ⟨"OTHER", some true⟩).2.2 (by decide),
   (C7_list_tables wEx dEx).2.1⟩

/-- C8 (witness): export evaluated on the concrete report. -/
theorem C8_witness :
    utf8SigContent rowsEx = utf8SigContent rowsEx ∧
    export_to_csv fsEmpty rowsEx "out.csv" "out.csv" = some (utf8SigContent rowsEx) :=
  ⟨C8_export_deterministic.1 rowsEx rowsEx rfl,
   C8_export_deterministic.2.2 fsEmpty rowsEx "out.csv"⟩

/-- C9 (witness): the concrete warehouse whose table-list query raises after
a successful connect — the run fails with the session open, writes nothing,
and ends with the session explicitly closed. -/
theorem C9_witness :
    (mainRunF wQFail "PUBLIC" fsEmpty).2.1 = fsEmpty ∧
    (mainRunF wQFail "PUBLIC" fsEmpty).1.connection ≠ some true ∧
    (wQFail.connectResult = .ok () →
      (mainRunF wQFail "PUBLIC" fsEmpty).1.connection = some false) ∧
    (wQFail.connectResult = .ok () →
      ∃ e, analyze_schemaF wQFail ⟨"PUBLIC", some true⟩ 5 none = .error e) ∧
    (∀ d : Detector, disconnect (disconnect d) = disconnect d) ∧
    (∀ s : String, disconnect ⟨s, none⟩ = ⟨s, none⟩) :=
  C9_fatal_failure wQFail "PUBLIC" fsEmpty rfl

/-- C10 (witness): the never-connected call on the concrete warehouse. -/
theorem C10_witness :
    ∃ rows, analyze_schema wEx ⟨"PUBLIC", none⟩ 2 none = .ok (⟨"PUBLIC", some true⟩, rows) ∧
      analyze_schema wEx ⟨"PUBLIC", some true⟩ 2 none = .ok (⟨"PUBLIC", some true⟩, rows) :=
  C10_auto_connect wEx "PUBLIC" 2 none rfl

